import Mathlib

/-!
Verification development for the quota-aware submission orchestrator in
`src/main.py` (IndexBot).  The Python source is shallowly embedded:

* the mutable per-channel quota dict (`used`, `day`) becomes `ApiState`,
  threaded explicitly through every function that mutates it;
* calendar dates are abstract day numbers (`Nat`); `datetime.utcnow().date()`
  becomes an explicit `today : Nat` parameter;
* HTTP transports become explicit parameters: a completed response is an
  `HttpResponse`, a raised `requests` exception is the `Except.error` side;
* JSON values returned by `response.json()` become the `Json` inductive
  (numeric literals are modelled as integers);
* the fetched sitemap tree reachable from a URL becomes the `Fetched`
  inductive: each node is the outcome of `requests.get` + `ET.fromstring`
  on one `<loc>` (a `<sitemap>` entry is assumed to carry a `<loc>` child,
  as every document the source handles does);
* Python exceptions that the websocket handler's outer `except` catches
  (`TypeError`/`AttributeError`/`KeyError` from the response inspection,
  transport errors from `session.post`) are reified as `Crash`; the exact
  human-readable exception texts are abstracted to the exception kind,
  since no control flow in the source depends on them;
* the websocket messages of `ws_index` become the structured `Event` stream
  (`started`, `sitemap_resolved`, `item_result`, `quota_exhausted`,
  `phase_complete`, `bulk_result`, `error`); the decorative framing text of
  each message is dropped, the data interpolated into it is kept.
-/

namespace IndexBot

/-- Daily per-channel submission limit: `DAILY_LIMIT = 200` in `src/main.py`. -/
def DAILY_LIMIT : Nat := 200

/-- Quota state of one API channel: the `used` / `day` fields of the channel
dict built at startup (`used = 0`, `day = today` at creation).  The
`name` / `email` / `session` fields are identity data never read or written
by the quota logic; the authenticated session appears as an explicit
transport parameter where the source uses `api["session"]`. -/
structure ApiState where
  used : Nat
  day : Nat
deriving DecidableEq, Repr

/-- `check_api_quota(api)` (src/main.py lines 119-124): day-rollover then
remaining quota.  Returns the (possibly reset) state together with
`DAILY_LIMIT - used`. -/
def check_api_quota (today : Nat) (api : ApiState) : ApiState × Int :=
  let api' := if today ≠ api.day then { api with day := today, used := 0 } else api
  (api', (DAILY_LIMIT : Int) - (api'.used : Int))

/-- `add_quota(api, count=1)` (src/main.py lines 126-127). -/
def add_quota (api : ApiState) (count : Nat) : ApiState :=
  { api with used := api.used + count }

/-- JSON values as returned by `response.json()`; numeric literals are
modelled as integers. -/
inductive Json where
  | null : Json
  | bool (b : Bool) : Json
  | num (n : Int) : Json
  | str (s : String) : Json
  | arr (elems : List Json) : Json
  | obj (fields : List (String × Json)) : Json

/-- Key lookup in a JSON object (`d[k]` / `d.get(k)` on a `dict`); objects
produced by `json.loads` have unique keys, so first-match lookup agrees with
Python's dict lookup. -/
def json_get (fields : List (String × Json)) (k : String) : Option Json :=
  (fields.find? (fun kv => kv.1 == k)).map (fun kv => kv.2)

/-- Substring test: Python's `needle in hay` on strings. -/
def pyInStr (needle hay : String) : Bool :=
  (hay.splitOn needle).length != 1

mutual
/-- Python `repr` of a JSON value (which `str` delegates to for containers). -/
def pyRepr : Json → String
  | Json.null => "None"
  | Json.bool true => "True"
  | Json.bool false => "False"
  | Json.num n => toString n
  | Json.str s => "\x27" ++ s ++ "\x27"
  | Json.arr xs => "[" ++ pyReprElems xs ++ "]"
  | Json.obj fs => "\x7b" ++ pyReprFields fs ++ "\x7d"

/-- Comma-separated `repr` of list elements. -/
def pyReprElems : List Json → String
  | [] => ""
  | [x] => pyRepr x
  | x :: xs => pyRepr x ++ ", " ++ pyReprElems xs

/-- Comma-separated `repr` of dict entries. -/
def pyReprFields : List (String × Json) → String
  | [] => ""
  | [(k, v)] => "\x27" ++ k ++ "\x27: " ++ pyRepr v
  | (k, v) :: fs => "\x27" ++ k ++ "\x27: " ++ pyRepr v ++ ", " ++ pyReprFields fs
end

/-- Python `str()` of a JSON value, as interpolated by an f-string. -/
def pyStr : Json → String
  | Json.str s => s
  | j => pyRepr j

/-- Exceptions raised by the response-inspection code in `ws_index`
(lines 279-282) and caught only by the handler's outer `except`. -/
inductive PyErr where
  | typeError : PyErr
  | attributeError : PyErr
  | keyError : PyErr
deriving DecidableEq, Repr

/-- Python `"error" in result` (src/main.py line 279): key test on a dict,
membership on a list, substring test on a string, `TypeError` otherwise. -/
def pyContains (result : Json) : Except PyErr Bool :=
  match result with
  | Json.obj fields => Except.ok (json_get fields "error").isSome
  | Json.arr xs =>
      Except.ok (xs.any (fun e => match e with | Json.str s => s == "error" | _ => false))
  | Json.str s => Except.ok (pyInStr "error" s)
  | _ => Except.error PyErr.typeError

/-- `result["error"].get("message", "Unknown error")` (src/main.py line 281):
indexing a non-dict raises `TypeError`; `.get` on a non-dict error value
raises `AttributeError`. -/
def error_message (result : Json) : Except PyErr String :=
  match result with
  | Json.obj fields =>
      match json_get fields "error" with
      | some (Json.obj efields) =>
          Except.ok (match json_get efields "message" with
                     | some v => pyStr v
                     | none => "Unknown error")
      | some _ => Except.error PyErr.attributeError
      | none => Except.error PyErr.keyError
  | _ => Except.error PyErr.typeError

/-- How `ws_index` (lines 279-285) classifies one submission result:
`ok (true, "")` success, `ok (false, msg)` failure with the extracted error
message, `error` an uncaught Python exception. -/
def item_outcome (result : Json) : Except PyErr (Bool × String) :=
  match pyContains result with
  | Except.error e => Except.error e
  | Except.ok true =>
      match error_message result with
      | Except.error e => Except.error e
      | Except.ok m => Except.ok (false, m)
  | Except.ok false => Except.ok (true, "")

/-- A completed HTTP response from the indexing endpoint: status code plus
the parsed JSON body, `none` when `response.json()` raises (empty or
unparseable body). -/
structure HttpResponse where
  status : Nat
  body : Option Json

/-- `index_with_api(api, url)` (src/main.py lines 144-152).  The transport
outcome of `api["session"].post(...)` is the `post` argument: a raised
exception (`Except.error`) propagates before `add_quota` runs; on a
completed response quota is consumed, then the parsed body is returned, or
`{"status": code}` when the body does not parse. -/
def index_with_api (api : ApiState) (post : Except String HttpResponse) :
    ApiState × Except String Json :=
  match post with
  | Except.error e => (api, Except.error e)
  | Except.ok r =>
      let api' := add_quota api 1
      (api', Except.ok (match r.body with
        | some j => j
        | none => Json.obj [("status", Json.num (r.status : Int))]))

/-- Sitemap-resolution failures: `FetchError` for `requests` exceptions /
`raise_for_status`, `ParseError` for `ET.fromstring` on malformed XML. -/
inductive SmError where
  | fetchError : SmError
  | parseError : SmError
deriving DecidableEq, Repr

/-- The outcome of fetching and parsing one sitemap URL, with the whole
tree reachable from it: `fetchFail` (HTTP error), `malformedXml`
(`ET.fromstring` raises), a root that is neither `sitemapindex` nor
`urlset` (`otherRoot`), a leaf `urlset` with its `<url><loc>` texts in
document order, or a `sitemapindex` whose children are the fetch outcomes
of its `<sitemap><loc>` entries in document order. -/
inductive Fetched where
  | fetchFail : Fetched
  | malformedXml : Fetched
  | otherRoot : Fetched
  | urlset (locs : List String) : Fetched
  | sitemapindex (children : List Fetched) : Fetched

mutual
/-- `parse_sitemap(url)` (src/main.py lines 154-168) on the fetched tree:
errors propagate (the source raises), a `urlset` yields its locs, a
`sitemapindex` concatenates the recursive resolution of its children in
document order, and any other root falls through both branches and yields
the initial empty `urls` list. -/
def parse_sitemap : Fetched → Except SmError (List String)
  | Fetched.fetchFail => Except.error SmError.fetchError
  | Fetched.malformedXml => Except.error SmError.parseError
  | Fetched.otherRoot => Except.ok []
  | Fetched.urlset locs => Except.ok locs
  | Fetched.sitemapindex children => parse_children children

/-- The `for sitemap in root.findall(...)` loop: resolve each child,
extending the accumulator; the first raised error aborts the whole call. -/
def parse_children : List Fetched → Except SmError (List String)
  | [] => Except.ok []
  | c :: cs =>
      match parse_sitemap c with
      | Except.error e => Except.error e
      | Except.ok us =>
          match parse_children cs with
          | Except.error e => Except.error e
          | Except.ok rest => Except.ok (us ++ rest)
end

/-- `submit_to_1hping(urls, name)` (src/main.py lines 173-191).  `bulkTr`
is the outcome `requests.post` would have on the given payload: a raised
exception (`Except.error`) is caught and becomes `(none, error_text)`; a
completed POST becomes `(some status_code, body_text)`.  A missing API key
short-circuits without posting. -/
def submit_to_1hping (hpingKey : Option String)
    (bulkTr : List String → String → Except String (Nat × String))
    (urls : List String) (name : String) : Option Nat × String :=
  match hpingKey with
  | none => (none, "HPING_API_KEY is not set")
  | some _ =>
      match bulkTr urls name with
      | Except.ok (code, text) => (some code, text)
      | Except.error e => (none, e)

/-- The structured events of a websocket session (spec §3 `Event`); each
constructor carries exactly the data the source interpolates into the
corresponding `send_text` message. -/
inductive Event where
  | started : Event
  | sitemap_resolved (total : Nat) : Event
  | item_result (index : Nat) (url : String) (ok : Bool) (message : String) : Event
  | quota_exhausted : Event
  | phase_complete (success fail : Nat) : Event
  | bulk_result (ok : Bool) (message : String) : Event
  | error (message : String) : Event
deriving DecidableEq, Repr

/-- An exception escaping the dispatch loop and caught only by the outer
handler of `ws_index` (lines 303-309): a transport exception raised by
`session.post`, or a Python error from the response inspection. -/
inductive Crash where
  | transport (e : String) : Crash
  | py (e : PyErr) : Crash
deriving DecidableEq, Repr

/-- Text of a response-inspection exception, abstracted to its kind. -/
def pyErrText : PyErr → String
  | PyErr.typeError => "TypeError"
  | PyErr.attributeError => "AttributeError"
  | PyErr.keyError => "KeyError"

/-- Text interpolated into the `Server error:` message. -/
def crashText : Crash → String
  | Crash.transport e => e
  | Crash.py e => pyErrText e

/-- Text interpolated into the sitemap-failure message, abstracted to the
exception kind. -/
def smErrText : SmError → String
  | SmError.fetchError => "FetchError"
  | SmError.parseError => "ParseError"

/-- Outcome of the per-URL dispatch loop of `ws_index` (lines 271-287):
final channel state, the `success` / `fail` counters, the events emitted by
the loop, the URLs actually handed to `index_with_api` in order, and the
exception that aborted the loop, if any. -/
structure LoopResult where
  api : ApiState
  success : Nat
  fail : Nat
  events : List Event
  submitted : List String
  crash : Option Crash
deriving Repr

/-- The `for i, url in enumerate(urls, start=1)` loop of `ws_index`
(lines 271-287): check remaining quota (with rollover) and stop early on
exhaustion; otherwise submit through `index_with_api` (`tr i` is the
transport outcome of the i-th POST) and classify the result. -/
def dispatch_loop (today : Nat) (tr : Nat → Except String HttpResponse) :
    List String → Nat → ApiState → Nat → Nat → LoopResult
  | [], _, api, s, f => ⟨api, s, f, [], [], none⟩
  | url :: rest, i, api, s, f =>
    let c := check_api_quota today api
    if c.2 ≤ 0 then
      ⟨c.1, s, f, [Event.quota_exhausted], [], none⟩
    else
      match index_with_api c.1 (tr i) with
      | (api2, Except.error e) => ⟨api2, s, f, [], [url], some (Crash.transport e)⟩
      | (api2, Except.ok result) =>
        match item_outcome result with
        | Except.error pe => ⟨api2, s, f, [], [url], some (Crash.py pe)⟩
        | Except.ok (b, m) =>
          let L := dispatch_loop today tr rest (i + 1) api2
                     (if b then s + 1 else s) (if b then f else f + 1)
          ⟨L.api, L.success, L.fail, Event.item_result i url b m :: L.events,
           url :: L.submitted, L.crash⟩

/-- Trace of one websocket session from the point the channel is selected:
the ordered event stream, the final channel state, the URLs handed to the
dispatcher, and the argument of the bulk-forward call when it is reached. -/
structure Trace where
  events : List Event
  api : ApiState
  submitted : List String
  bulkCall : Option (List String × String)
deriving Repr

/-- The nested `try`/`except` of `ws_index` (lines 257-261, identical in
`check_domain`): resolve the HTTPS sitemap URL; on any failure fall back,
once, to the HTTP variant, whose outcome is then final. -/
def resolve_urls (httpsDoc httpDoc : Fetched) : Except SmError (List String) :=
  match parse_sitemap httpsDoc with
  | Except.ok us => Except.ok us
  | Except.error _ => parse_sitemap httpDoc

/-- `ws_index` after sitemap resolution (lines 262-298): a resolution
failure emits `error` and closes; otherwise the dispatch loop runs, an
escaping exception surfaces as a `Server error` event, and on normal loop
exit the summary (whose `quota_message` re-applies rollover to the channel)
and the bulk-forward result are emitted. -/
def session_after_resolve (today : Nat) (domain : String) (api : ApiState)
    (r : Except SmError (List String)) (tr : Nat → Except String HttpResponse)
    (hpingKey : Option String)
    (bulkTr : List String → String → Except String (Nat × String)) : Trace :=
  match r with
  | Except.error e => ⟨[Event.started, Event.error (smErrText e)], api, [], none⟩
  | Except.ok urls =>
    let L := dispatch_loop today tr urls 1 api 0 0
    match L.crash with
    | some c =>
        ⟨Event.started :: Event.sitemap_resolved urls.length ::
           (L.events ++ [Event.error ("Server error: " ++ crashText c)]),
         L.api, L.submitted, none⟩
    | none =>
        let api2 := (check_api_quota today L.api).1
        let bulk := submit_to_1hping hpingKey bulkTr urls domain
        ⟨Event.started :: Event.sitemap_resolved urls.length ::
           (L.events ++ [Event.phase_complete L.success L.fail,
                         Event.bulk_result (bulk.1 == some 200) bulk.2]),
         api2, L.submitted, some (urls, domain)⟩

/-- One websocket session of `ws_index` (lines 252-298), from the point the
channel has been selected: start, resolve the sitemap with HTTP fallback,
dispatch, summarise, bulk-forward. -/
def ws_session (today : Nat) (domain : String) (api : ApiState)
    (httpsDoc httpDoc : Fetched) (tr : Nat → Except String HttpResponse)
    (hpingKey : Option String)
    (bulkTr : List String → String → Except String (Nat × String)) : Trace :=
  session_after_resolve today domain api (resolve_urls httpsDoc httpDoc) tr hpingKey bulkTr

/-- Classifies a dispatch outcome that raises no Python exception. -/
def outcome_ok : Except PyErr (Bool × String) → Bool
  | Except.ok _ => true
  | Except.error _ => false

/-- A completed transport response whose body the loop of `ws_index`
handles without raising: an unparseable or empty body, or a parsed body on
which the `error`-field inspection succeeds. -/
def response_ok (r : HttpResponse) : Bool :=
  match r.body with
  | none => true
  | some j => outcome_ok (item_outcome j)

/-! ### Helper lemmas about the quota functions -/

/-- When the stored day is current, `check_api_quota` leaves the state alone. -/
theorem check_same_day {today : Nat} {api : ApiState} (h : api.day = today) :
    check_api_quota today api = (api, (DAILY_LIMIT : Int) - (api.used : Int)) := by
  simp [check_api_quota, h]

/-- On a stale day, `check_api_quota` resets the counter and the day. -/
theorem check_stale_day {today : Nat} {api : ApiState} (h : today ≠ api.day) :
    check_api_quota today api = ({ used := 0, day := today }, (DAILY_LIMIT : Int)) := by
  simp [check_api_quota, h]

/-- After `check_api_quota`, the stored day is always the current day. -/
theorem check_day (today : Nat) (api : ApiState) :
    (check_api_quota today api).1.day = today := by
  by_cases h : today = api.day
  · simp [check_api_quota, h]
  · simp [check_api_quota, h]

/-- The returned remaining quota is `DAILY_LIMIT` minus the rolled-over counter. -/
theorem check_snd (today : Nat) (api : ApiState) :
    (check_api_quota today api).2
      = (DAILY_LIMIT : Int) - ((check_api_quota today api).1.used : Int) := rfl

/-- `check_api_quota` never increases the counter. -/
theorem check_used_le {today : Nat} {api : ApiState} (h : api.used ≤ DAILY_LIMIT) :
    (check_api_quota today api).1.used ≤ DAILY_LIMIT := by
  by_cases hd : today = api.day
  · simpa [check_api_quota, hd] using h
  · simp [check_api_quota, hd]

/-- `check_api_quota` is idempotent within one day. -/
theorem check_idem (today : Nat) (api : ApiState) :
    check_api_quota today (check_api_quota today api).1 = check_api_quota today api := by
  by_cases h : today = api.day
  · simp [check_api_quota, h]
  · simp [check_api_quota, h]

/-- An unparseable body is replaced by `{"status": code}`, which carries no
`error` field and is classified as a success. -/
theorem item_outcome_status (st : Int) :
    item_outcome (Json.obj [("status", Json.num st)]) = Except.ok (true, "") := rfl

/-! ### Claim theorems: registry and dispatcher -/

/-- Claim C4: calling `check_api_quota` on a day different from the stored
`quota_day` resets `used_count` to 0, sets `quota_day` to the current day,
and returns exactly `DAILY_LIMIT`. -/
theorem check_api_quota_rollover (today : Nat) (api : ApiState) (h : api.day ≠ today) :
    check_api_quota today api = ({ used := 0, day := today }, (DAILY_LIMIT : Int)) :=
  check_stale_day (Ne.symm h)

/-- Claim C4 witness: a channel with 150 used on day 3, checked on day 4. -/
theorem check_api_quota_rollover_witness :
    check_api_quota 4 ⟨150, 3⟩ = ({ used := 0, day := 4 }, (DAILY_LIMIT : Int)) :=
  check_api_quota_rollover 4 ⟨150, 3⟩ (by decide)

/-- Claim C3: every submission whose POST completes consumes exactly one
unit of quota, whatever the HTTP status and whatever body the response
carries (hence however the caller later classifies it). -/
theorem index_with_api_consumes_one (api : ApiState) (r : HttpResponse) :
    (index_with_api api (Except.ok r)).1.used = api.used + 1 := rfl

/-- Claim C10: when the POST itself raises, the exception propagates and the
quota state is returned untouched — `add_quota` only runs after a response
is received. -/
theorem index_with_api_exn_no_consume (api : ApiState) (e : String) :
    index_with_api api (Except.error e) = (api, Except.error e) := rfl

/-! ### Claim theorems: sitemap resolver -/

/-- Each child of a sitemap index contributes its own resolution, in
document order. -/
theorem parse_children_forall2 {children : List Fetched} {rs : List (List String)}
    (h : List.Forall₂ (fun c r => parse_sitemap c = Except.ok r) children rs) :
    parse_children children = Except.ok rs.flatten := by
  induction h with
  | nil => rfl
  | cons h1 _ ih => simp [parse_children, h1, ih]

/-- Claim C2: a url set resolves to its `<url><loc>` values in document
order (duplicates permitted), and a sitemap index resolves to the
depth-first concatenation, in document order, of its children's
resolutions. -/
theorem parse_sitemap_structure (locs : List String) (children : List Fetched)
    (rs : List (List String))
    (h : List.Forall₂ (fun c r => parse_sitemap c = Except.ok r) children rs) :
    parse_sitemap (Fetched.urlset locs) = Except.ok locs ∧
    parse_sitemap (Fetched.sitemapindex children) = Except.ok rs.flatten := by
  exact ⟨rfl, by simp [parse_sitemap, parse_children_forall2 h]⟩

/-- Claim C2 witness: an index of two leaf url sets concatenates them. -/
theorem parse_sitemap_structure_witness :
    parse_sitemap (Fetched.urlset ["a", "a"]) = Except.ok ["a", "a"] ∧
    parse_sitemap (Fetched.sitemapindex [Fetched.urlset ["a"], Fetched.urlset ["b", "c"]]) =
      Except.ok [["a"], ["b", "c"]].flatten :=
  parse_sitemap_structure ["a", "a"] _ [["a"], ["b", "c"]]
    (List.Forall₂.cons rfl (List.Forall₂.cons rfl List.Forall₂.nil))

/-- Claim C5 counterexample: a fetched document whose root is neither a
sitemap index nor a url set does NOT fail with `ParseError` — it falls
through both branches of `parse_sitemap` and returns the empty list. -/
theorem parse_sitemap_other_root_returns :
    parse_sitemap Fetched.otherRoot = Except.ok ([] : List String) := rfl

/-- Claim C5 (amended): malformed XML fails with `ParseError` (raised by
`ET.fromstring`), while a document whose root element is neither a sitemap
index nor a url set returns the empty URL list without error. -/
theorem parse_sitemap_error_cases :
    parse_sitemap Fetched.malformedXml = Except.error SmError.parseError ∧
    parse_sitemap Fetched.otherRoot = Except.ok ([] : List String) :=
  ⟨rfl, rfl⟩

/-! ### Claim theorems: bulk forwarder -/

/-- Claim C9: `submit_to_1hping` is total (it never propagates an
exception): a missing key yields `(none, message)` without posting, a
transport exception is converted to `(none, error_text)`, and a completed
POST yields `(some status_code, body_text)`. -/
theorem submit_to_1hping_never_raises (key : Option String)
    (bulkTr : List String → String → Except String (Nat × String))
    (urls : List String) (name : String) :
    (key = none →
       submit_to_1hping key bulkTr urls name = (none, "HPING_API_KEY is not set")) ∧
    (∀ k e, key = some k → bulkTr urls name = Except.error e →
       submit_to_1hping key bulkTr urls name = (none, e)) ∧
    (∀ k c t, key = some k → bulkTr urls name = Except.ok (c, t) →
       submit_to_1hping key bulkTr urls name = (some c, t)) := by
  refine ⟨fun h => ?_, fun k e hk he => ?_, fun k c t hk ho => ?_⟩
  · subst h; rfl
  · subst hk; simp [submit_to_1hping, he]
  · subst hk; simp [submit_to_1hping, ho]

/-- Claim C9 witness: the three outcomes at concrete inputs. -/
theorem submit_to_1hping_never_raises_witness :
    submit_to_1hping (some "k") (fun _ _ => Except.error "boom") ["u"] "n" = (none, "boom") ∧
    submit_to_1hping (some "k") (fun _ _ => Except.ok (200, "t")) ["u"] "n" = (some 200, "t") ∧
    submit_to_1hping none (fun _ _ => Except.ok (200, "t")) ["u"] "n"
      = (none, "HPING_API_KEY is not set") :=
  ⟨(submit_to_1hping_never_raises (some "k") (fun _ _ => Except.error "boom") ["u"] "n").2.1
      "k" "boom" rfl rfl,
   (submit_to_1hping_never_raises (some "k") (fun _ _ => Except.ok (200, "t")) ["u"] "n").2.2
      "k" 200 "t" rfl rfl,
   (submit_to_1hping_never_raises none (fun _ _ => Except.ok (200, "t")) ["u"] "n").1 rfl⟩

/-! ### Claim theorems: response interpretation -/

/-- Claim C6 counterexample: a completed response whose body parses to the
JSON number `5` is NOT reported as success — `"error" in result` raises
`TypeError` on a non-iterable, the dispatch loop aborts, the session ends
with a `Server error` event and never reaches the bulk-forward phase. -/
theorem ws_session_nonobject_body_not_success :
    (ws_session 0 "d" ⟨0, 0⟩ (Fetched.urlset ["u"]) Fetched.fetchFail
        (fun _ => Except.ok ⟨200, some (Json.num 5)⟩) none
        (fun _ _ => Except.ok (200, "ok"))).events
      = [Event.started, Event.sitemap_resolved 1,
         Event.error "Server error: TypeError"] ∧
    (ws_session 0 "d" ⟨0, 0⟩ (Fetched.urlset ["u"]) Fetched.fetchFail
        (fun _ => Except.ok ⟨200, some (Json.num 5)⟩) none
        (fun _ _ => Except.ok (200, "ok"))).bulkCall = none :=
  ⟨rfl, rfl⟩

/-- Claim C6 (amended): for responses whose parsed body is a JSON object
(the shape the endpoint produces), an `error` field whose value is an
object is reported as failure with the nested `message`, or
`"Unknown error"` when no nested message exists; an object without an
`error` field, and an unparseable or empty body (replaced by
`{"status": code}`), are reported as success.  Bodies outside this shape
raise an exception that aborts the session instead. -/
theorem index_response_interpretation :
    (∀ (fields efields : List (String × Json)) (m : String),
       json_get fields "error" = some (Json.obj efields) →
       json_get efields "message" = some (Json.str m) →
       item_outcome (Json.obj fields) = Except.ok (false, m)) ∧
    (∀ (fields efields : List (String × Json)),
       json_get fields "error" = some (Json.obj efields) →
       json_get efields "message" = none →
       item_outcome (Json.obj fields) = Except.ok (false, "Unknown error")) ∧
    (∀ (fields : List (String × Json)),
       json_get fields "error" = none →
       item_outcome (Json.obj fields) = Except.ok (true, "")) ∧
    (∀ (api : ApiState) (st : Nat),
       (index_with_api api (Except.ok ⟨st, none⟩)).2
         = Except.ok (Json.obj [("status", Json.num (st : Int))]) ∧
       item_outcome (Json.obj [("status", Json.num (st : Int))]) = Except.ok (true, "")) := by
  refine ⟨?_, ?_, ?_, fun api st => ⟨rfl, rfl⟩⟩
  · intro fields efields m h1 h2
    simp [item_outcome, pyContains, error_message, h1, h2, pyStr]
  · intro fields efields h1 h2
    simp [item_outcome, pyContains, error_message, h1, h2]
  · intro fields h1
    simp [item_outcome, pyContains, h1]

/-- Claim C6 witness: the four interpretations at concrete responses. -/
theorem index_response_interpretation_witness :
    item_outcome (Json.obj [("error", Json.obj [("message", Json.str "boom")])])
      = Except.ok (false, "boom") ∧
    item_outcome (Json.obj [("error", Json.obj [])])
      = Except.ok (false, "Unknown error") ∧
    item_outcome (Json.obj [("result", Json.str "fine")]) = Except.ok (true, "") ∧
    (index_with_api ⟨0, 0⟩ (Except.ok ⟨204, none⟩)).2
      = Except.ok (Json.obj [("status", Json.num 204)]) :=
  ⟨index_response_interpretation.1 _ _ "boom" rfl rfl,
   index_response_interpretation.2.1 _ _ rfl rfl,
   index_response_interpretation.2.2.1 _ rfl,
   (index_response_interpretation.2.2.2 ⟨0, 0⟩ 204).1⟩

/-! ### Claim theorems: dispatch-loop invariant -/

/-- Claim C8: the quota invariant `used_count ≤ DAILY_LIMIT` is preserved by
the dispatch loop: every check-then-submit step verifies `remaining > 0`
(with day-rollover applied) before consuming 1, so from any state within
the limit — in particular from the `used = 0` state a channel is created
in — every state the loop produces is within the limit. -/
theorem dispatch_loop_quota_invariant (today : Nat)
    (tr : Nat → Except String HttpResponse) (urls : List String) (i : Nat)
    (api : ApiState) (s f : Nat) (h : api.used ≤ DAILY_LIMIT) :
    (dispatch_loop today tr urls i api s f).api.used ≤ DAILY_LIMIT := by
  induction urls generalizing i api s f with
  | nil => simpa [dispatch_loop] using h
  | cons u rest ih =>
    rw [dispatch_loop]
    by_cases hrem : (check_api_quota today api).2 ≤ 0
    · simpa [hrem] using check_used_le h
    · have hlt : (check_api_quota today api).1.used < DAILY_LIMIT := by
        have hs := check_snd today api
        omega
      simp only [hrem, if_false]
      cases htr : tr i with
      | error e => simpa [index_with_api, htr] using le_of_lt hlt
      | ok r =>
        have h1 : (add_quota (check_api_quota today api).1 1).used ≤ DAILY_LIMIT := by
          simp [add_quota]; omega
        cases hb : r.body with
        | none =>
          simpa [index_with_api, htr, hb, item_outcome_status] using ih (i + 1) _ _ _ h1
        | some j =>
          cases hio : item_outcome j with
          | error pe => simpa [index_with_api, htr, hb, hio] using h1
          | ok p =>
            cases p with
            | mk b m =>
              simpa [index_with_api, htr, hb, hio] using ih (i + 1) _ _ _ h1

/-- Claim C8 witness: two URLs dispatched from a fresh channel. -/
theorem dispatch_loop_quota_invariant_witness :
    (dispatch_loop 0 (fun _ => Except.ok ⟨200, none⟩) ["a", "b"] 1 ⟨0, 0⟩ 0 0).api.used
      ≤ DAILY_LIMIT :=
  dispatch_loop_quota_invariant 0 (fun _ => Except.ok ⟨200, none⟩) ["a", "b"] 1 ⟨0, 0⟩ 0 0
    (by decide)

/-! ### Claim theorems: quota-bounded dispatch -/

/-- A safe transport always yields a completed, handleable response. -/
theorem response_ok_some {r : HttpResponse} {j : Json} (hb : r.body = some j)
    (hok : response_ok r = true) : ∃ p, item_outcome j = Except.ok p := by
  have hok2 : outcome_ok (item_outcome j) = true := by
    unfold response_ok at hok
    rw [hb] at hok
    exact hok
  cases hio : item_outcome j with
  | error e => rw [hio] at hok2; simp [outcome_ok] at hok2
  | ok p => exact ⟨p, rfl⟩

/-- The first iteration of the dispatch loop sees the same checked state
whether or not `check_api_quota` was already applied to its argument. -/
theorem dispatch_loop_cons_check (today : Nat) (tr : Nat → Except String HttpResponse)
    (u : String) (rest : List String) (i : Nat) (api : ApiState) (s f : Nat) :
    dispatch_loop today tr (u :: rest) i api s f
      = dispatch_loop today tr (u :: rest) i (check_api_quota today api).1 s f := by
  rw [dispatch_loop, dispatch_loop, check_idem]

/-- Core of claim C1: from a same-day state with exactly `k` remaining and
more than `k` URLs left, the loop submits exactly the first `k` URLs in
order, never crashes, adds exactly `k` to the success/fail counters, and
ends its event stream with `quota_exhausted` after `k` item results. -/
theorem dispatch_loop_exhausts_aux (today : Nat) (tr : Nat → Except String HttpResponse)
    (hsafe : ∀ i, ∃ r, tr i = Except.ok r ∧ response_ok r = true) :
    ∀ (urls : List String) (k i : Nat) (api : ApiState) (s f : Nat),
      api.day = today → api.used + k = DAILY_LIMIT → k < urls.length →
      (dispatch_loop today tr urls i api s f).crash = none ∧
      (dispatch_loop today tr urls i api s f).submitted = urls.take k ∧
      (dispatch_loop today tr urls i api s f).success
          + (dispatch_loop today tr urls i api s f).fail = s + f + k ∧
      ∃ evs, (dispatch_loop today tr urls i api s f).events = evs ++ [Event.quota_exhausted]
        ∧ evs.length = k := by
  intro urls
  induction urls with
  | nil => intro k i api s f _ _ hk; simp at hk
  | cons u rest ih =>
    intro k i api s f hday hused hk
    cases k with
    | zero =>
      have hrem : (DAILY_LIMIT : Int) - (api.used : Int) ≤ 0 := by omega
      rw [dispatch_loop]
      simp only [check_same_day hday]
      refine ⟨by simp [hrem], by simp [hrem], by simp [hrem], ⟨[], by simp [hrem], rfl⟩⟩
    | succ k' =>
      have hrem : ¬ ((DAILY_LIMIT : Int) - (api.used : Int) ≤ 0) := by omega
      obtain ⟨r, htr, hok⟩ := hsafe i
      have hday2 : (add_quota api 1).day = today := by simpa [add_quota] using hday
      have hused2 : (add_quota api 1).used + k' = DAILY_LIMIT := by simp [add_quota]; omega
      have hk2 : k' < rest.length := by simpa using Nat.lt_of_succ_lt_succ hk
      rw [dispatch_loop]
      simp only [check_same_day hday]
      cases hb : r.body with
      | none =>
        obtain ⟨hc, hsub, hcount, evs, hev, hlen⟩ :=
          ih k' (i + 1) (add_quota api 1) (s + 1) f hday2 hused2 hk2
        refine ⟨?_, ?_, ?_, ⟨Event.item_result i u true "" :: evs, ?_, by simpa using hlen⟩⟩
        · simpa [index_with_api, htr, hb, item_outcome_status, hrem] using hc
        · simpa [index_with_api, htr, hb, item_outcome_status, hrem] using hsub
        · simp [index_with_api, htr, hb, item_outcome_status, hrem]
          omega
        · simpa [index_with_api, htr, hb, item_outcome_status, hrem] using hev
      | some j =>
        obtain ⟨⟨b, m⟩, hio⟩ := response_ok_some hb hok
        cases b with
        | true =>
          obtain ⟨hc, hsub, hcount, evs, hev, hlen⟩ :=
            ih k' (i + 1) (add_quota api 1) (s + 1) f hday2 hused2 hk2
          refine ⟨?_, ?_, ?_, ⟨Event.item_result i u true m :: evs, ?_, by simpa using hlen⟩⟩
          · simpa [index_with_api, htr, hb, hio, hrem] using hc
          · simpa [index_with_api, htr, hb, hio, hrem] using hsub
          · simp [index_with_api, htr, hb, hio, hrem]
            omega
          · simpa [index_with_api, htr, hb, hio, hrem] using hev
        | false =>
          obtain ⟨hc, hsub, hcount, evs, hev, hlen⟩ :=
            ih k' (i + 1) (add_quota api 1) s (f + 1) hday2 hused2 hk2
          refine ⟨?_, ?_, ?_, ⟨Event.item_result i u false m :: evs, ?_, by simpa using hlen⟩⟩
          · simpa [index_with_api, htr, hb, hio, hrem] using hc
          · simpa [index_with_api, htr, hb, hio, hrem] using hsub
          · simp [index_with_api, htr, hb, hio, hrem]
            omega
          · simpa [index_with_api, htr, hb, hio, hrem] using hev

/-- Claim C1: when the chosen channel has exactly `k` remaining and the
resolved URL list is longer than `k`, the session submits exactly the first
`k` URLs in order, emits `quota_exhausted`, counts only the `k` attempted
URLs in its success/fail totals (the unattempted remainder counts as
neither), and still bulk-forwards the full original URL list. -/
theorem ws_session_quota_exhaustion (today k : Nat) (domain : String) (api : ApiState)
    (httpsDoc httpDoc : Fetched) (tr : Nat → Except String HttpResponse)
    (hpingKey : Option String)
    (bulkTr : List String → String → Except String (Nat × String))
    (urls : List String)
    (hres : resolve_urls httpsDoc httpDoc = Except.ok urls)
    (hrem : (check_api_quota today api).2 = (k : Int))
    (hk : k < urls.length)
    (hsafe : ∀ i, ∃ r, tr i = Except.ok r ∧ response_ok r = true) :
    (ws_session today domain api httpsDoc httpDoc tr hpingKey bulkTr).submitted
      = urls.take k ∧
    Event.quota_exhausted
      ∈ (ws_session today domain api httpsDoc httpDoc tr hpingKey bulkTr).events ∧
    (∃ s f, s + f = k ∧ Event.phase_complete s f
      ∈ (ws_session today domain api httpsDoc httpDoc tr hpingKey bulkTr).events) ∧
    (ws_session today domain api httpsDoc httpDoc tr hpingKey bulkTr).bulkCall
      = some (urls, domain) := by
  cases urls with
  | nil => simp at hk
  | cons u rest =>
    have h1 : ((check_api_quota today api).1).day = today := check_day today api
    have h2 : ((check_api_quota today api).1).used + k = DAILY_LIMIT := by
      have hs := check_snd today api
      omega
    obtain ⟨hc, hsub, hcount, evs, hev, hlen⟩ :=
      dispatch_loop_exhausts_aux today tr hsafe (u :: rest) k 1
        (check_api_quota today api).1 0 0 h1 h2 hk
    rw [← dispatch_loop_cons_check] at hc hsub hcount hev
    unfold ws_session
    rw [hres]
    unfold session_after_resolve
    simp only [hc]
    refine ⟨by simpa using hsub, by simp [hev], ?_, by simp⟩
    refine ⟨(dispatch_loop today tr (u :: rest) 1 api 0 0).success,
            (dispatch_loop today tr (u :: rest) 1 api 0 0).fail, by omega, by simp⟩

/-- Claim C1 witness: channel with 1 remaining, 2 resolved URLs. -/
theorem ws_session_quota_exhaustion_witness :
    (ws_session 0 "d" ⟨199, 0⟩ (Fetched.urlset ["a", "b"]) Fetched.fetchFail
        (fun _ => Except.ok ⟨200, none⟩) none
        (fun _ _ => Except.ok (200, "ok"))).submitted = ["a", "b"].take 1 ∧
    Event.quota_exhausted
      ∈ (ws_session 0 "d" ⟨199, 0⟩ (Fetched.urlset ["a", "b"]) Fetched.fetchFail
          (fun _ => Except.ok ⟨200, none⟩) none (fun _ _ => Except.ok (200, "ok"))).events ∧
    (∃ s f, s + f = 1 ∧ Event.phase_complete s f
      ∈ (ws_session 0 "d" ⟨199, 0⟩ (Fetched.urlset ["a", "b"]) Fetched.fetchFail
          (fun _ => Except.ok ⟨200, none⟩) none (fun _ _ => Except.ok (200, "ok"))).events) ∧
    (ws_session 0 "d" ⟨199, 0⟩ (Fetched.urlset ["a", "b"]) Fetched.fetchFail
        (fun _ => Except.ok ⟨200, none⟩) none
        (fun _ _ => Except.ok (200, "ok"))).bulkCall = some (["a", "b"], "d") :=
  ws_session_quota_exhaustion 0 1 "d" ⟨199, 0⟩ (Fetched.urlset ["a", "b"]) Fetched.fetchFail
    (fun _ => Except.ok ⟨200, none⟩) none (fun _ _ => Except.ok (200, "ok")) ["a", "b"]
    rfl (by decide) (by decide) (fun _ => ⟨⟨200, none⟩, rfl, rfl⟩)

/-! ### Claim theorems: HTTPS→HTTP sitemap fallback -/

/-- Claim C7: when resolving the HTTPS sitemap URL fails, the session
retries exactly once against the HTTP variant (its outcome is final): if
that also fails the session emits a single `error` event and stops (no
dispatch, no bulk-forward); if it succeeds the session proceeds normally —
it is exactly the session run on the HTTP result, beginning with
`started` and `sitemap_resolved` over the HTTP URL count. -/
theorem ws_session_http_fallback (today : Nat) (domain : String) (api : ApiState)
    (httpsDoc httpDoc : Fetched) (tr : Nat → Except String HttpResponse)
    (hpingKey : Option String)
    (bulkTr : List String → String → Except String (Nat × String))
    (e1 : SmError)
    (h1 : parse_sitemap httpsDoc = Except.error e1) :
    resolve_urls httpsDoc httpDoc = parse_sitemap httpDoc ∧
    (∀ e2, parse_sitemap httpDoc = Except.error e2 →
       (ws_session today domain api httpsDoc httpDoc tr hpingKey bulkTr).events
         = [Event.started, Event.error (smErrText e2)] ∧
       (ws_session today domain api httpsDoc httpDoc tr hpingKey bulkTr).submitted = [] ∧
       (ws_session today domain api httpsDoc httpDoc tr hpingKey bulkTr).bulkCall = none) ∧
    (∀ us, parse_sitemap httpDoc = Except.ok us →
       ws_session today domain api httpsDoc httpDoc tr hpingKey bulkTr
         = session_after_resolve today domain api (Except.ok us) tr hpingKey bulkTr ∧
       ∃ tail, (ws_session today domain api httpsDoc httpDoc tr hpingKey bulkTr).events
         = Event.started :: Event.sitemap_resolved us.length :: tail) := by
  have hr : resolve_urls httpsDoc httpDoc = parse_sitemap httpDoc := by
    unfold resolve_urls
    rw [h1]
  refine ⟨hr, ?_, ?_⟩
  · intro e2 h2
    unfold ws_session
    rw [hr, h2]
    exact ⟨rfl, rfl, rfl⟩
  · intro us h2
    unfold ws_session
    rw [hr, h2]
    refine ⟨rfl, ?_⟩
    unfold session_after_resolve
    cases hcr : (dispatch_loop today tr us 1 api 0 0).crash with
    | none => simp only [hcr]; exact ⟨_, rfl⟩
    | some c => simp only [hcr]; exact ⟨_, rfl⟩

/-- Claim C7 witness: HTTPS fetch fails; with a malformed HTTP sitemap the
session fails with one error event, with a 5-URL HTTP sitemap it proceeds
as the session on those 5 URLs. -/
theorem ws_session_http_fallback_witness :
    (ws_session 0 "d" ⟨0, 0⟩ Fetched.fetchFail Fetched.malformedXml
        (fun _ => Except.ok ⟨200, none⟩) none (fun _ _ => Except.ok (200, "ok"))).events
      = [Event.started, Event.error "ParseError"] ∧
    ws_session 0 "d" ⟨0, 0⟩ Fetched.fetchFail (Fetched.urlset ["a", "b", "c", "d", "e"])
        (fun _ => Except.ok ⟨200, none⟩) none (fun _ _ => Except.ok (200, "ok"))
      = session_after_resolve 0 "d" ⟨0, 0⟩ (Except.ok ["a", "b", "c", "d", "e"])
        (fun _ => Except.ok ⟨200, none⟩) none (fun _ _ => Except.ok (200, "ok")) :=
  ⟨((ws_session_http_fallback 0 "d" ⟨0, 0⟩ Fetched.fetchFail Fetched.malformedXml
      (fun _ => Except.ok ⟨200, none⟩) none (fun _ _ => Except.ok (200, "ok"))
      SmError.fetchError rfl).2.1 SmError.parseError rfl).1,
   ((ws_session_http_fallback 0 "d" ⟨0, 0⟩ Fetched.fetchFail
      (Fetched.urlset ["a", "b", "c", "d", "e"])
      (fun _ => Except.ok ⟨200, none⟩) none (fun _ _ => Except.ok (200, "ok"))
      SmError.fetchError rfl).2.2 ["a", "b", "c", "d", "e"] rfl).1⟩

end IndexBot
